import Mathlib

/-!
# Verification of the Vault secret-manager adapter

Shallow embedding of `pkg/secretsmanager/vault_secretmanager.go`.

Go strings and byte slices are both byte sequences; we model both as
`List Nat` with each element a byte value (< 256).  The Go conversions
`string(data)` and `[]byte(s)` are then the identity, exactly as in Go.
A Go `error` result is modelled by `Option`/`Except` as noted on each
definition.
-/

namespace SecretAgent

/-- A Go string or `[]byte` value, as its sequence of byte values. -/
abbrev Bytes := List Nat

/-- Byte values of an ASCII Lean string literal (UTF-8 of ASCII is the
code point itself; every literal we use is ASCII). -/
def strBytes (s : String) : Bytes :=
  s.toList.map Char.toNat

/-! ## Model of Go `encoding/base64` (`StdEncoding`)

`base64.StdEncoding.EncodeToString` / `base64.StdEncoding.DecodeString`
as used by the adapter: the standard alphabet with `=` (byte 61) padding,
non-strict decode (trailing padding bits are not checked), newline bytes
(10 and 13) ignored by the decoder, and a decode error on any other
character outside the alphabet, on misplaced padding, and on an input
whose length (after removing newlines) is not a multiple of four. -/

/-- The standard base64 alphabet, as byte values
(`A`–`Z`, `a`–`z`, `0`–`9`, `+`, `/`). -/
def b64Table : Bytes :=
  strBytes "ABCDEFGHIJKLMNOPQRSTUVWXYZabcdefghijklmnopqrstuvwxyz0123456789+/"

/-- Encode a 6-bit group to its alphabet byte.  Go indexes its encode
table with the group masked to 6 bits (`& 0x3F`), hence the `% 64`. -/
def encByte (n : Nat) : Nat :=
  b64Table.getD (n % 64) 0

/-- Decode an alphabet byte to its 6-bit value; `none` for a byte
outside the alphabet (Go's decode map holds `0xFF` there, an error). -/
def decByte (c : Nat) : Option Nat :=
  (List.range 64).find? (fun i => encByte i == c)

/-- One pass of Go's base64 encoder over the input, three bytes to four
output bytes per quantum, the last quantum padded with `=` (61). -/
def encodeGroups : Bytes → Bytes
  | b0 :: b1 :: b2 :: rest =>
      encByte (b0 / 4) :: encByte (b0 % 4 * 16 + b1 / 16) ::
      encByte (b1 % 16 * 4 + b2 / 64) :: encByte (b2 % 64) :: encodeGroups rest
  | [b0, b1] => [encByte (b0 / 4), encByte (b0 % 4 * 16 + b1 / 16), encByte (b1 % 16 * 4), 61]
  | [b0] => [encByte (b0 / 4), encByte (b0 % 4 * 16), 61, 61]
  | [] => []

/-- `base64.StdEncoding.EncodeToString`. -/
def base64Encode (data : Bytes) : Bytes :=
  encodeGroups data

/-- Go's base64 decoder on the newline-free input: four input bytes per
quantum; `=` may appear only as the final one or two bytes of the final
quantum; any non-alphabet byte, misplaced `=`, data after padding, or
trailing partial quantum is an error (`none`). -/
def decodeGroups : Bytes → Option Bytes
  | [] => some []
  | c0 :: c1 :: c2 :: c3 :: rest =>
      match decByte c0, decByte c1 with
      | some v0, some v1 =>
          if c2 = 61 then
            if c3 = 61 ∧ rest = [] then some [v0 * 4 + v1 / 16] else none
          else
            match decByte c2 with
            | some v2 =>
                if c3 = 61 then
                  if rest = [] then some [v0 * 4 + v1 / 16, v1 % 16 * 16 + v2 / 4] else none
                else
                  match decByte c3 with
                  | some v3 =>
                      (decodeGroups rest).map
                        (fun bs => (v0 * 4 + v1 / 16) :: (v1 % 16 * 16 + v2 / 4) ::
                                   (v2 % 4 * 64 + v3) :: bs)
                  | none => none
            | none => none
      | _, _ => none
  | _ => none

/-- `base64.StdEncoding.DecodeString`: newline bytes (13 = CR, 10 = LF)
are ignored, then the input is decoded quantum by quantum.  `none`
models a returned `error`. -/
def base64Decode (s : Bytes) : Option Bytes :=
  decodeGroups (s.filter (fun c => c != 13 && c != 10))

/-! ## Secret-type tags and package defaults -/

/-- Modelled from the spec: the secret-type tag for keystores; the
constant `TypeKeystore` referenced by the adapter's `switch` is declared
elsewhere in the package (not in the sources at hand).  The three tag
constants are pairwise distinct, as Go requires of the `switch` cases. -/
def TypeKeystore : Bytes := strBytes "keystore"

/-- Modelled from the spec: the secret-type tag for PEM payloads
(constant `TypePEM`, declared elsewhere in the package). -/
def TypePEM : Bytes := strBytes "pem"

/-- Modelled from the spec: the secret-type tag for passwords
(constant `TypePassword`, declared elsewhere in the package). -/
def TypePassword : Bytes := strBytes "password"

/-- `DefaultVaultKVSecretPath = "kube/fr/secret"`. -/
def DefaultVaultKVSecretPath : Bytes := strBytes "kube/fr/secret"

/-- `DefaultVaultAddress = "http://vault-active.vault.svc.cluster.local:8200"`. -/
def DefaultVaultAddress : Bytes := strBytes "http://vault-active.vault.svc.cluster.local:8200"

/-- `DefaultVaultKubeRoleName = "fr-secret-agent"`. -/
def DefaultVaultKubeRoleName : Bytes := strBytes "fr-secret-agent"

/-- `DefaultSecretKey = "value"`. -/
def DefaultSecretKey : Bytes := strBytes "value"

/-- `DefaultKVMount = "secret"`. -/
def DefaultKVMount : Bytes := strBytes "secret"

/-! ## The adapter handle and its operations -/

/-- `secretManagerVault`: the bootstrapped handle.  The live
`vaultClient` transport session is external state; the KV backend it
reaches is passed to each operation explicitly below. -/
structure secretManagerVault where
  secretPath : Bytes
  kvMount : Bytes
deriving DecidableEq

/-- A Go `interface{}` value stored in a KV record field: a string, or
anything that is not a string (whose content never matters to the
adapter, so it is a single constructor). -/
inductive GoValue where
  | str (s : Bytes)
  | nonStr
deriving DecidableEq

/-- `getSecretPath`: `fmt.Sprintf("%s/%s", vm.secretPath, secretName)`. -/
def secretManagerVault.getSecretPath (vm : secretManagerVault) (secretName : Bytes) : Bytes :=
  vm.secretPath ++ strBytes "/" ++ secretName

/-- `getSecretStrValue`: format bytes as string according to secret
type.  The Go `switch` on `secretType` becomes an `if` chain in source
order; `string(data)` on a byte slice is the identity on its bytes. -/
def secretManagerVault.getSecretStrValue (_vm : secretManagerVault)
    (data : Bytes) (secretType : Bytes) : Bytes :=
  if secretType = TypeKeystore then base64Encode data
  else if secretType = TypePEM then data
  else if secretType = TypePassword then data
  else base64Encode data

/-- `getSecretByteValue`: format string as bytes according to secret
type; `[]byte(data)` is the identity, and the keystore/default branches
return `base64.StdEncoding.DecodeString(data)`.  `none` models a
returned `error`. -/
def secretManagerVault.getSecretByteValue (_vm : secretManagerVault)
    (data : Bytes) (secretType : Bytes) : Option Bytes :=
  if secretType = TypeKeystore then base64Decode data
  else if secretType = TypePEM then some data
  else if secretType = TypePassword then some data
  else base64Decode data

/-- The KV v2 upsert issued by `EnsureSecret`:
`vm.vaultClient.KVv2(vm.kvMount).Put(ctx, path, payload)`. -/
structure PutRequest where
  mount : Bytes
  path : Bytes
  payload : List (Bytes × GoValue)
deriving DecidableEq

/-- `EnsureSecret`: encodes the value per type, builds the two-field
payload map (`value`, `secret_type`), computes the path, and issues the
upsert.  The request sent to the external client is the function's
observable effect; the Go function then returns `Put`'s error (stack-
wrapped) or `nil`, which adds nothing beyond the request itself. -/
def secretManagerVault.EnsureSecret (vm : secretManagerVault)
    (secretName : Bytes) (value : Bytes) (secretType : Bytes) : PutRequest :=
  { mount := vm.kvMount
    path := vm.getSecretPath secretName
    payload := [(DefaultSecretKey, GoValue.str (vm.getSecretStrValue value secretType)),
                (strBytes "secret_type", GoValue.str secretType)] }

/-- Result of the external KV v2 read
`vm.vaultClient.KVv2(vm.kvMount).Get(ctx, path)`: either an error of any
kind (not-found included) or a retrieved record's `Data` map. -/
inductive KVReadResult where
  | failure
  | success (data : List (Bytes × GoValue))

/-- The lookup-and-type-assert `secret.Data[DefaultSecretKey].(string)`:
`some` exactly when the key is present and its value is a string. -/
def getStringField (data : List (Bytes × GoValue)) (key : Bytes) : Option Bytes :=
  match (data.find? (fun p => p.1 == key)).map Prod.snd with
  | some (GoValue.str s) => some s
  | _ => none

/-- The body of `LoadSecret` after the KV read: a read error returns
`([]byte{}, nil)`; a record whose `value` field is absent or not a
string returns `([]byte{}, nil)`; otherwise the string is decoded per
type.  `some bs` models `(bs, nil)`, `none` models a returned error. -/
def secretManagerVault.loadSecretFromRead (vm : secretManagerVault)
    (readResult : KVReadResult) (secretType : Bytes) : Option Bytes :=
  match readResult with
  | .failure => some []
  | .success data =>
      match getStringField data DefaultSecretKey with
      | none => some []
      | some value => vm.getSecretByteValue value secretType

/-- `LoadSecret`: computes the path, reads the KV backend (modelled as
the function `kv` from path to read outcome), and processes the result. -/
def secretManagerVault.LoadSecret (vm : secretManagerVault)
    (kv : Bytes → KVReadResult) (secretName : Bytes) (secretType : Bytes) : Option Bytes :=
  vm.loadSecretFromRead (kv (vm.getSecretPath secretName)) secretType

/-- `CloseClient`: empty function retained to satisfy the backend
interface. -/
def secretManagerVault.CloseClient (_vm : secretManagerVault) : Unit := ()

/-! ## Client bootstrap (`newVault`) -/

/-- The four optional string overrides of `v1alpha1.AppConfig` consumed
by `newVault`; the empty string (`[]`) means unset. -/
structure AppConfig where
  VaultAddress : Bytes
  VaultKubeRole : Bytes
  VaultKVSecretPath : Bytes
  VaultKVMount : Bytes

/-- The four distinct failure sites of `newVault`, one per returned
`fmt.Errorf` message. -/
inductive VaultInitError where
  | clientInit
  | authInit
  | loginFailed
  | noAuthInfo
deriving DecidableEq

/-- Outcome of `client.Auth().Login(ctx, k8sAuth)`: an error, a `nil`
`authInfo`, or a usable session. -/
inductive LoginOutcome where
  | err
  | nilInfo
  | ok

/-- `newVault`: resolves each configuration field by override-or-default
(`X := DefaultX; if cfg.X != "" { X = cfg.X }`), then constructs the
transport client bound to the resolved address, the Kubernetes auth
method bound to the resolved role, and performs the login.  The three
external calls are modelled by `newClient` (applied to the resolved
address), `newAuth` (applied to the resolved role) and `login`; `false`
means the call returned an error.  `Except.error` models the
corresponding `fmt.Errorf` return with no handle. -/
def newVault (cfg : AppConfig) (newClient : Bytes → Bool) (newAuth : Bytes → Bool)
    (login : LoginOutcome) : Except VaultInitError secretManagerVault :=
  let vaultAddr := if cfg.VaultAddress ≠ [] then cfg.VaultAddress else DefaultVaultAddress
  let vaultRole := if cfg.VaultKubeRole ≠ [] then cfg.VaultKubeRole else DefaultVaultKubeRoleName
  let vaultSecretPath :=
    if cfg.VaultKVSecretPath ≠ [] then cfg.VaultKVSecretPath else DefaultVaultKVSecretPath
  let vaultKVMount := if cfg.VaultKVMount ≠ [] then cfg.VaultKVMount else DefaultKVMount
  if newClient vaultAddr = false then .error .clientInit
  else if newAuth vaultRole = false then .error .authInit
  else
    match login with
    | .err => .error .loginFailed
    | .nilInfo => .error .noAuthInfo
    | .ok => .ok { secretPath := vaultSecretPath, kvMount := vaultKVMount }

/-! ## Helper lemmas about the base64 model -/

/-- An encoded byte is never the pad byte `=` (61) nor a newline byte
(13, 10): the alphabet contains none of them. -/
theorem encByte_props (n : Nat) : encByte n ≠ 61 ∧ encByte n ≠ 13 ∧ encByte n ≠ 10 := by
  have h : n % 64 < 64 := Nat.mod_lt _ (by norm_num)
  have key : ∀ m < 64, b64Table.getD m 0 ≠ 61 ∧ b64Table.getD m 0 ≠ 13 ∧ b64Table.getD m 0 ≠ 10 := by
    decide
  simpa [encByte] using key _ h

/-- Decoding inverts encoding on every 6-bit value. -/
theorem decByte_encByte : ∀ v < 64, decByte (encByte v) = some v := by decide

/-- Every byte of an encoded quantum stream is an alphabet byte or the
pad byte. -/
theorem mem_encodeGroups {a : Nat} : ∀ {bs : Bytes}, a ∈ encodeGroups bs →
    (∃ n, a = encByte n) ∨ a = 61 := by
  intro bs
  induction bs using encodeGroups.induct with
  | case1 b0 b1 b2 rest ih =>
      intro h
      rw [encodeGroups] at h
      simp only [List.mem_cons] at h
      rcases h with rfl | rfl | rfl | rfl | h
      · exact Or.inl ⟨_, rfl⟩
      · exact Or.inl ⟨_, rfl⟩
      · exact Or.inl ⟨_, rfl⟩
      · exact Or.inl ⟨_, rfl⟩
      · exact ih h
  | case2 b0 b1 =>
      intro h
      rw [encodeGroups] at h
      simp only [List.mem_cons, List.not_mem_nil, or_false] at h
      rcases h with rfl | rfl | rfl | rfl
      · exact Or.inl ⟨_, rfl⟩
      · exact Or.inl ⟨_, rfl⟩
      · exact Or.inl ⟨_, rfl⟩
      · exact Or.inr rfl
  | case3 b0 =>
      intro h
      rw [encodeGroups] at h
      simp only [List.mem_cons, List.not_mem_nil, or_false] at h
      rcases h with rfl | rfl | rfl | rfl
      · exact Or.inl ⟨_, rfl⟩
      · exact Or.inl ⟨_, rfl⟩
      · exact Or.inr rfl
      · exact Or.inr rfl
  | case4 =>
      intro h
      simp [encodeGroups] at h

/-- The decoder's newline filter leaves encoder output unchanged. -/
theorem encodeGroups_filter (bs : Bytes) :
    (encodeGroups bs).filter (fun c => c != 13 && c != 10) = encodeGroups bs := by
  apply List.filter_eq_self.mpr
  intro a ha
  rcases mem_encodeGroups ha with ⟨n, rfl⟩ | rfl
  · have h := encByte_props n
    simp only [Bool.and_eq_true, bne_iff_ne, ne_eq]
    exact ⟨h.2.1, h.2.2⟩
  · decide

/-- Quantum-level round trip: decoding the encoding of any byte list
(bytes < 256, as Go's `byte` guarantees) succeeds with the input. -/
theorem decodeGroups_encodeGroups : ∀ bs : Bytes, (∀ b ∈ bs, b < 256) →
    decodeGroups (encodeGroups bs) = some bs := by
  intro bs
  induction bs using encodeGroups.induct with
  | case1 b0 b1 b2 rest ih =>
      intro hb
      have h0 : b0 < 256 := hb _ (by simp)
      have h1 : b1 < 256 := hb _ (by simp)
      have h2 : b2 < 256 := hb _ (by simp)
      have e0 := decByte_encByte (b0 / 4) (by omega)
      have e1 := decByte_encByte (b0 % 4 * 16 + b1 / 16) (by omega)
      have e2 := decByte_encByte (b1 % 16 * 4 + b2 / 64) (by omega)
      have e3 := decByte_encByte (b2 % 64) (by omega)
      have ne2 := (encByte_props (b1 % 16 * 4 + b2 / 64)).1
      have ne3 := (encByte_props (b2 % 64)).1
      have hrest : decodeGroups (encodeGroups rest) = some rest :=
        ih (fun b hbm => hb b (by simp [hbm]))
      rw [encodeGroups]
      simp only [decodeGroups, e0, e1]
      rw [if_neg ne2]
      simp only [e2]
      rw [if_neg ne3, e3, hrest]
      dsimp only
      simp only [Option.map_some', Option.some.injEq, List.cons.injEq]
      refine ⟨by omega, by omega, by omega, trivial⟩
  | case2 b0 b1 =>
      intro hb
      have h0 : b0 < 256 := hb _ (by simp)
      have h1 : b1 < 256 := hb _ (by simp)
      have e0 := decByte_encByte (b0 / 4) (by omega)
      have e1 := decByte_encByte (b0 % 4 * 16 + b1 / 16) (by omega)
      have e2 := decByte_encByte (b1 % 16 * 4) (by omega)
      have ne2 := (encByte_props (b1 % 16 * 4)).1
      rw [encodeGroups]
      simp only [decodeGroups, e0, e1]
      rw [if_neg ne2]
      simp only [e2]
      simp only [if_true]
      simp only [Option.some.injEq, List.cons.injEq]
      refine ⟨by omega, by omega, trivial⟩
  | case3 b0 =>
      intro hb
      have h0 : b0 < 256 := hb _ (by simp)
      have e0 := decByte_encByte (b0 / 4) (by omega)
      have e1 := decByte_encByte (b0 % 4 * 16) (by omega)
      rw [encodeGroups]
      simp only [decodeGroups, e0, e1]
      simp only [if_true, and_self]
      simp only [Option.some.injEq, List.cons.injEq]
      refine ⟨by omega, trivial⟩
  | case4 =>
      intro _
      rfl

/-- `DecodeString (EncodeToString bs) = bs` for every byte list. -/
theorem base64_roundtrip (bs : Bytes) (h : ∀ b ∈ bs, b < 256) :
    base64Decode (base64Encode bs) = some bs := by
  unfold base64Decode base64Encode
  rw [encodeGroups_filter]
  exact decodeGroups_encodeGroups bs h

end SecretAgent

namespace SecretAgent

/-- C1: For every byte payload P and every secret-type tag T (keystore,
PEM, password, or any unrecognized tag), decoding the string produced by
the store-time encoding with the same tag returns exactly P:
`getSecretByteValue(getSecretStrValue(P, T), T)` succeeds and equals P. -/
theorem getSecretByteValue_getSecretStrValue (vm : secretManagerVault)
    (data : Bytes) (secretType : Bytes) (h : ∀ b ∈ data, b < 256) :
    vm.getSecretByteValue (vm.getSecretStrValue data secretType) secretType = some data := by
  unfold secretManagerVault.getSecretStrValue secretManagerVault.getSecretByteValue
  by_cases h1 : secretType = TypeKeystore
  · simp [h1, base64_roundtrip data h]
  · by_cases h2 : secretType = TypePEM
    · simp [h1, h2, show TypePEM ≠ TypeKeystore from by decide]
    · by_cases h3 : secretType = TypePassword
      · simp [h1, h2, h3, show TypePassword ≠ TypeKeystore from by decide,
          show TypePassword ≠ TypePEM from by decide]
      · simp [h1, h2, h3, base64_roundtrip data h]

/-- Witness for C1 at payload `[1, 2, 3]` and tag keystore. -/
theorem getSecretByteValue_getSecretStrValue_witness :
    (∀ b ∈ [1, 2, 3], b < 256) ∧
    (secretManagerVault.mk [] []).getSecretByteValue
      ((secretManagerVault.mk [] []).getSecretStrValue [1, 2, 3] TypeKeystore) TypeKeystore
      = some [1, 2, 3] :=
  ⟨by decide, getSecretByteValue_getSecretStrValue (secretManagerVault.mk [] []) [1, 2, 3]
    TypeKeystore (by decide)⟩

end SecretAgent

namespace SecretAgent

/-- C2: For every secret name and type, if the KV read issued by
`LoadSecret` fails for any reason (including not-found), or if the
retrieved record's `value` field is absent or not a string, `LoadSecret`
returns an empty byte sequence and no error (`some []`). -/
theorem loadSecret_soft_miss (vm : secretManagerVault) (kv : Bytes → KVReadResult)
    (secretName secretType : Bytes) :
    (kv (vm.getSecretPath secretName) = KVReadResult.failure →
      vm.LoadSecret kv secretName secretType = some []) ∧
    (∀ data, kv (vm.getSecretPath secretName) = KVReadResult.success data →
      getStringField data DefaultSecretKey = none →
      vm.LoadSecret kv secretName secretType = some []) := by
  constructor
  · intro h
    unfold secretManagerVault.LoadSecret
    rw [h]
    rfl
  · intro data h hf
    unfold secretManagerVault.LoadSecret
    rw [h]
    unfold secretManagerVault.loadSecretFromRead
    dsimp only
    rw [hf]

/-- Witness for C2: a failing read, and a record with no string `value`
field, both yield `some []`. -/
theorem loadSecret_soft_miss_witness :
    ((fun _ : Bytes => KVReadResult.failure) ((secretManagerVault.mk [] []).getSecretPath []) =
        KVReadResult.failure ∧
      (secretManagerVault.mk [] []).LoadSecret (fun _ => KVReadResult.failure) [] TypeKeystore =
        some []) ∧
    ((fun _ : Bytes => KVReadResult.success [([1], GoValue.nonStr)])
        ((secretManagerVault.mk [] []).getSecretPath []) =
        KVReadResult.success [([1], GoValue.nonStr)] ∧
      getStringField [([1], GoValue.nonStr)] DefaultSecretKey = none ∧
      (secretManagerVault.mk [] []).LoadSecret
        (fun _ => KVReadResult.success [([1], GoValue.nonStr)]) [] TypeKeystore = some []) :=
  ⟨⟨rfl, (loadSecret_soft_miss (secretManagerVault.mk [] [])
      (fun _ => KVReadResult.failure) [] TypeKeystore).1 rfl⟩,
   ⟨rfl, by decide, (loadSecret_soft_miss (secretManagerVault.mk [] [])
      (fun _ => KVReadResult.success [([1], GoValue.nonStr)]) [] TypeKeystore).2
      [([1], GoValue.nonStr)] rfl (by decide)⟩⟩

/-- C3: if `LoadSecret` retrieves a record whose `value` field is a
string that is not valid base64 and the supplied type is keystore (or
any unrecognized tag, i.e. anything but PEM and password), it returns an
error (`none`) — not an empty result. -/
theorem loadSecret_decode_failure (vm : secretManagerVault) (kv : Bytes → KVReadResult)
    (secretName secretType value : Bytes) (data : List (Bytes × GoValue))
    (hread : kv (vm.getSecretPath secretName) = KVReadResult.success data)
    (hval : getStringField data DefaultSecretKey = some value)
    (hbad : base64Decode value = none)
    (h2 : secretType ≠ TypePEM) (h3 : secretType ≠ TypePassword) :
    vm.LoadSecret kv secretName secretType = none := by
  unfold secretManagerVault.LoadSecret
  rw [hread]
  unfold secretManagerVault.loadSecretFromRead
  dsimp only
  rw [hval]
  unfold secretManagerVault.getSecretByteValue
  by_cases h1 : secretType = TypeKeystore
  · simp [h1, hbad]
  · simp [h1, h2, h3, hbad]

/-- Witness for C3 at the stored string `"!"` (byte 33) and tag
keystore. -/
theorem loadSecret_decode_failure_witness :
    ((fun _ : Bytes => KVReadResult.success [(DefaultSecretKey, GoValue.str [33])])
        ((secretManagerVault.mk [] []).getSecretPath []) =
      KVReadResult.success [(DefaultSecretKey, GoValue.str [33])]) ∧
    getStringField [(DefaultSecretKey, GoValue.str [33])] DefaultSecretKey = some [33] ∧
    base64Decode [33] = none ∧
    TypeKeystore ≠ TypePEM ∧ TypeKeystore ≠ TypePassword ∧
    (secretManagerVault.mk [] []).LoadSecret
      (fun _ => KVReadResult.success [(DefaultSecretKey, GoValue.str [33])]) [] TypeKeystore =
      none :=
  ⟨rfl, by decide, by decide, by decide, by decide,
   loadSecret_decode_failure (secretManagerVault.mk [] [])
     (fun _ => KVReadResult.success [(DefaultSecretKey, GoValue.str [33])]) [] TypeKeystore
     [33] [(DefaultSecretKey, GoValue.str [33])] rfl (by decide) (by decide)
     (by decide) (by decide)⟩

end SecretAgent

namespace SecretAgent

/-- C4: the type-to-encoding rule is a total function used symmetrically
by store and load: keystore encodes by base64 and decodes by
base64-decode, PEM and password use the identity in both directions, and
every other tag behaves identically to keystore for both encode and
decode. -/
theorem encoding_rule_symmetric (vm : secretManagerVault) (data s : Bytes) :
    vm.getSecretStrValue data TypeKeystore = base64Encode data ∧
    vm.getSecretByteValue s TypeKeystore = base64Decode s ∧
    vm.getSecretStrValue data TypePEM = data ∧
    vm.getSecretByteValue s TypePEM = some s ∧
    vm.getSecretStrValue data TypePassword = data ∧
    vm.getSecretByteValue s TypePassword = some s ∧
    (∀ t, t ≠ TypePEM → t ≠ TypePassword →
      vm.getSecretStrValue data t = vm.getSecretStrValue data TypeKeystore ∧
      vm.getSecretByteValue s t = vm.getSecretByteValue s TypeKeystore) := by
  refine ⟨rfl, rfl, ?_, ?_, ?_, ?_, ?_⟩
  · simp [secretManagerVault.getSecretStrValue, show TypePEM ≠ TypeKeystore from by decide]
  · simp [secretManagerVault.getSecretByteValue, show TypePEM ≠ TypeKeystore from by decide]
  · simp [secretManagerVault.getSecretStrValue, show TypePassword ≠ TypeKeystore from by decide,
      show TypePassword ≠ TypePEM from by decide]
  · simp [secretManagerVault.getSecretByteValue, show TypePassword ≠ TypeKeystore from by decide,
      show TypePassword ≠ TypePEM from by decide]
  · intro t h2 h3
    by_cases h1 : t = TypeKeystore
    · exact ⟨by rw [h1], by rw [h1]⟩
    · constructor
      · simp [secretManagerVault.getSecretStrValue, h1, h2, h3]
      · simp [secretManagerVault.getSecretByteValue, h1, h2, h3]

/-- Witness for C4: the unrecognized tag `"x"` (byte 120) encodes and
decodes exactly as keystore does. -/
theorem encoding_rule_symmetric_witness :
    ([120] ≠ TypePEM) ∧ ([120] ≠ TypePassword) ∧
    (secretManagerVault.mk [] []).getSecretStrValue [0] [120] =
      (secretManagerVault.mk [] []).getSecretStrValue [0] TypeKeystore ∧
    (secretManagerVault.mk [] []).getSecretByteValue [65, 65, 61, 61] [120] =
      (secretManagerVault.mk [] []).getSecretByteValue [65, 65, 61, 61] TypeKeystore :=
  ⟨by decide, by decide,
   ((encoding_rule_symmetric (secretManagerVault.mk [] []) [0] [65, 65, 61, 61]).2.2.2.2.2.2
     [120] (by decide) (by decide)).1,
   ((encoding_rule_symmetric (secretManagerVault.mk [] []) [0] [65, 65, 61, 61]).2.2.2.2.2.2
     [120] (by decide) (by decide)).2⟩

/-- C5: `EnsureSecret` and `LoadSecret` compute byte-identical remote
paths equal to the resolved path followed by `/` and the name:
`EnsureSecret`'s upsert path is `getSecretPath`, `getSecretPath` is
`secretPath ++ "/" ++ name`, and `LoadSecret` reads the KV backend at
that same path. -/
theorem ensure_load_same_path (vm : secretManagerVault) (kv : Bytes → KVReadResult)
    (secretName value secretType : Bytes) :
    (vm.EnsureSecret secretName value secretType).path = vm.getSecretPath secretName ∧
    vm.getSecretPath secretName = vm.secretPath ++ strBytes "/" ++ secretName ∧
    vm.LoadSecret kv secretName secretType =
      vm.loadSecretFromRead (kv (vm.getSecretPath secretName)) secretType :=
  ⟨rfl, rfl, rfl⟩

/-- C6: storing name `"keystore1"` with payload `[0x01, 0x02, 0x03]` and
type keystore produces a record whose `value` field is the string
`"AQID"` (its base64), and loading that stored record with type keystore
returns `[0x01, 0x02, 0x03]`. -/
theorem concrete_keystore_scenario :
    getStringField ((secretManagerVault.mk DefaultVaultKVSecretPath DefaultKVMount).EnsureSecret
        (strBytes "keystore1") [1, 2, 3] TypeKeystore).payload DefaultSecretKey =
      some (strBytes "AQID") ∧
    (secretManagerVault.mk DefaultVaultKVSecretPath DefaultKVMount).LoadSecret
      (fun p =>
        if p = ((secretManagerVault.mk DefaultVaultKVSecretPath DefaultKVMount).EnsureSecret
            (strBytes "keystore1") [1, 2, 3] TypeKeystore).path
        then KVReadResult.success ((secretManagerVault.mk DefaultVaultKVSecretPath
            DefaultKVMount).EnsureSecret (strBytes "keystore1") [1, 2, 3] TypeKeystore).payload
        else KVReadResult.failure)
      (strBytes "keystore1") TypeKeystore = some [1, 2, 3] := by
  decide

/-- C7: the record written by `EnsureSecret` has exactly the two fields
`value` and `secret_type`, the `value` field is always a string, and the
stored string follows the encoding rule: base64 for keystore and for any
unrecognized tag, the raw text for PEM and password. -/
theorem ensureSecret_record_shape (vm : secretManagerVault)
    (secretName value secretType : Bytes) :
    (vm.EnsureSecret secretName value secretType).payload =
      [(DefaultSecretKey, GoValue.str (vm.getSecretStrValue value secretType)),
       (strBytes "secret_type", GoValue.str secretType)] ∧
    vm.getSecretStrValue value TypeKeystore = base64Encode value ∧
    vm.getSecretStrValue value TypePEM = value ∧
    vm.getSecretStrValue value TypePassword = value ∧
    (secretType ≠ TypeKeystore → secretType ≠ TypePEM → secretType ≠ TypePassword →
      vm.getSecretStrValue value secretType = base64Encode value) := by
  refine ⟨rfl, rfl, ?_, ?_, ?_⟩
  · simp [secretManagerVault.getSecretStrValue, show TypePEM ≠ TypeKeystore from by decide]
  · simp [secretManagerVault.getSecretStrValue, show TypePassword ≠ TypeKeystore from by decide,
      show TypePassword ≠ TypePEM from by decide]
  · intro h1 h2 h3
    simp [secretManagerVault.getSecretStrValue, h1, h2, h3]

/-- Witness for C7 at the unrecognized tag `"x"` (byte 120). -/
theorem ensureSecret_record_shape_witness :
    ([120] ≠ TypeKeystore) ∧ ([120] ≠ TypePEM) ∧ ([120] ≠ TypePassword) ∧
    (secretManagerVault.mk [] []).getSecretStrValue [1, 2, 3] [120] =
      base64Encode [1, 2, 3] :=
  ⟨by decide, by decide, by decide,
   (ensureSecret_record_shape (secretManagerVault.mk [] []) [] [1, 2, 3] [120]).2.2.2.2
     (by decide) (by decide) (by decide)⟩

/-- C10: `LoadSecret` called with secret type PEM or password never
returns an error: read and missing-field failures become an empty
success, and the identity decode for these types cannot fail. -/
theorem loadSecret_pem_password_total (vm : secretManagerVault) (kv : Bytes → KVReadResult)
    (secretName secretType : Bytes)
    (h : secretType = TypePEM ∨ secretType = TypePassword) :
    (vm.LoadSecret kv secretName secretType).isSome = true := by
  unfold secretManagerVault.LoadSecret secretManagerVault.loadSecretFromRead
  cases kv (vm.getSecretPath secretName) with
  | failure => rfl
  | success data =>
      dsimp only
      cases getStringField data DefaultSecretKey with
      | none => rfl
      | some value =>
          dsimp only
          rcases h with rfl | rfl
          · simp [secretManagerVault.getSecretByteValue,
              show TypePEM ≠ TypeKeystore from by decide]
          · simp [secretManagerVault.getSecretByteValue,
              show TypePassword ≠ TypeKeystore from by decide,
              show TypePassword ≠ TypePEM from by decide]

/-- Witness for C10 with a PEM load over a failing read. -/
theorem loadSecret_pem_password_total_witness :
    (TypePEM = TypePEM ∨ TypePEM = TypePassword) ∧
    ((secretManagerVault.mk [] []).LoadSecret (fun _ => KVReadResult.failure) []
      TypePEM).isSome = true :=
  ⟨Or.inl rfl, loadSecret_pem_password_total (secretManagerVault.mk [] [])
    (fun _ => KVReadResult.failure) [] TypePEM (Or.inl rfl)⟩

end SecretAgent

namespace SecretAgent

/-- C8: bootstrap resolves each of the four fields by
override-or-default — a non-empty override is used verbatim, an unset
field takes its hardcoded default — the transport client is bound to the
resolved address, the auth method to the resolved role, and the
resulting handle carries the resolved KV path and mount. -/
theorem newVault_config_resolution (cfg : AppConfig) (newClient newAuth : Bytes → Bool)
    (hc : newClient (if cfg.VaultAddress ≠ [] then cfg.VaultAddress else DefaultVaultAddress)
      = true)
    (ha : newAuth (if cfg.VaultKubeRole ≠ [] then cfg.VaultKubeRole else DefaultVaultKubeRoleName)
      = true) :
    newVault cfg newClient newAuth LoginOutcome.ok =
      Except.ok
        { secretPath :=
            if cfg.VaultKVSecretPath ≠ [] then cfg.VaultKVSecretPath
            else DefaultVaultKVSecretPath
          kvMount := if cfg.VaultKVMount ≠ [] then cfg.VaultKVMount else DefaultKVMount } := by
  unfold newVault
  simp only [ne_eq, ite_not] at hc ha
  simp [hc, ha]

/-- Witness for C8: the all-default configuration yields a handle with
the default KV path and mount. -/
theorem newVault_config_resolution_witness :
    ((fun _ : Bytes => true)
        (if (AppConfig.mk [] [] [] []).VaultAddress ≠ []
         then (AppConfig.mk [] [] [] []).VaultAddress else DefaultVaultAddress) = true) ∧
    ((fun _ : Bytes => true)
        (if (AppConfig.mk [] [] [] []).VaultKubeRole ≠ []
         then (AppConfig.mk [] [] [] []).VaultKubeRole else DefaultVaultKubeRoleName) = true) ∧
    newVault (AppConfig.mk [] [] [] []) (fun _ => true) (fun _ => true) LoginOutcome.ok =
      Except.ok { secretPath := DefaultVaultKVSecretPath, kvMount := DefaultKVMount } := by
  refine ⟨rfl, rfl, ?_⟩
  have h := newVault_config_resolution (AppConfig.mk [] [] [] []) (fun _ => true) (fun _ => true)
    rfl rfl
  simpa using h

/-- C9: each of the four bootstrap failure modes is surfaced as its own
distinct error and no handle: transport-client construction failure,
auth-method construction failure, login-exchange failure, and login
returning an empty session. -/
theorem newVault_failure_modes (cfg : AppConfig) (newClient newAuth : Bytes → Bool) :
    (∀ login, newClient (if cfg.VaultAddress ≠ [] then cfg.VaultAddress
        else DefaultVaultAddress) = false →
      newVault cfg newClient newAuth login = Except.error VaultInitError.clientInit) ∧
    (∀ login, newClient (if cfg.VaultAddress ≠ [] then cfg.VaultAddress
        else DefaultVaultAddress) = true →
      newAuth (if cfg.VaultKubeRole ≠ [] then cfg.VaultKubeRole
        else DefaultVaultKubeRoleName) = false →
      newVault cfg newClient newAuth login = Except.error VaultInitError.authInit) ∧
    (newClient (if cfg.VaultAddress ≠ [] then cfg.VaultAddress
        else DefaultVaultAddress) = true →
      newAuth (if cfg.VaultKubeRole ≠ [] then cfg.VaultKubeRole
        else DefaultVaultKubeRoleName) = true →
      newVault cfg newClient newAuth LoginOutcome.err =
        Except.error VaultInitError.loginFailed) ∧
    (newClient (if cfg.VaultAddress ≠ [] then cfg.VaultAddress
        else DefaultVaultAddress) = true →
      newAuth (if cfg.VaultKubeRole ≠ [] then cfg.VaultKubeRole
        else DefaultVaultKubeRoleName) = true →
      newVault cfg newClient newAuth LoginOutcome.nilInfo =
        Except.error VaultInitError.noAuthInfo) := by
  refine ⟨?_, ?_, ?_, ?_⟩
  · intro login hc
    unfold newVault
    simp only [ne_eq, ite_not] at hc
    simp [hc]
  · intro login hc ha
    unfold newVault
    simp only [ne_eq, ite_not] at hc ha
    simp [hc, ha]
  · intro hc ha
    unfold newVault
    simp only [ne_eq, ite_not] at hc ha
    simp [hc, ha]
  · intro hc ha
    unfold newVault
    simp only [ne_eq, ite_not] at hc ha
    simp [hc, ha]

/-- Witness for C9: all four failure modes observed on the all-default
configuration. -/
theorem newVault_failure_modes_witness :
    newVault (AppConfig.mk [] [] [] []) (fun _ => false) (fun _ => true) LoginOutcome.ok =
      Except.error VaultInitError.clientInit ∧
    newVault (AppConfig.mk [] [] [] []) (fun _ => true) (fun _ => false) LoginOutcome.ok =
      Except.error VaultInitError.authInit ∧
    newVault (AppConfig.mk [] [] [] []) (fun _ => true) (fun _ => true) LoginOutcome.err =
      Except.error VaultInitError.loginFailed ∧
    newVault (AppConfig.mk [] [] [] []) (fun _ => true) (fun _ => true) LoginOutcome.nilInfo =
      Except.error VaultInitError.noAuthInfo :=
  ⟨(newVault_failure_modes (AppConfig.mk [] [] [] []) (fun _ => false) (fun _ => true)).1
     LoginOutcome.ok rfl,
   (newVault_failure_modes (AppConfig.mk [] [] [] []) (fun _ => true) (fun _ => false)).2.1
     LoginOutcome.ok rfl rfl,
   (newVault_failure_modes (AppConfig.mk [] [] [] []) (fun _ => true) (fun _ => true)).2.2.1
     rfl rfl,
   (newVault_failure_modes (AppConfig.mk [] [] [] []) (fun _ => true) (fun _ => true)).2.2.2
     rfl rfl⟩

end SecretAgent
